import Mathlib

/-!
Verification of the synthetic-data generation core of this repository
(`src/backend/synthetic_data/core/generator.py` together with the registry in
`src/backend/synthetic_data/config/settings.py`).

The embedding is shallow:
* JSON values returned by `json.loads` are the inductive `Json`; Python's
  `int`/`float` are modelled by `Int` (only exact integer offsets are ever
  added by the code), and Python booleans are a separate constructor even
  though `isinstance(True, int)` holds in Python — the one place where this
  matters (the padding mutation) converts a boolean to the integer it stands
  for, exactly as Python's `True + k` does.
* `json.loads` itself is an external library call; the pipeline is therefore
  parametrised by an oracle `loads : String → Option Json` (`none` models a
  `json.JSONDecodeError`).  Likewise the text-generation backend is an oracle
  `backend : ℕ → String → String` giving the raw response of the `b`-th
  sequential call for a given prompt.
* Python dicts preserve insertion order, so a record is an ordered association
  list `List (String × Json)`.
-/

set_option linter.unusedVariables false
set_option maxRecDepth 8192

inductive Json where
  | str (s : String)
  | num (n : Int)
  | bool (b : Bool)
  | null
  | arr (elems : List Json)
  | obj (fields : List (String × Json))
deriving Repr

/-- An ordered field-name/value mapping, the element type the repair code in
`generate_data` operates on (`data[-1].copy()` requires a dict). -/
abbrev Record := List (String × Json)

/-! ## The count-mismatch repair of `DataGenerator.generate_data`
(`generator.py` lines 96–113).  The padding loop mutates every field of a
copy of the *original* last record, keyed on the index `len(data)` the new
record will occupy. -/

/-- One field-value mutation of the padding loop (lines 104–108):
`str` values get `f"{value}_{len(data)}"`, `int`/`float` values get
`value + len(data)`.  Python booleans satisfy `isinstance(b, int)`, so they
take the numeric branch (`True + k == 1 + k`); other JSON values match
neither `isinstance` test and are left unchanged. -/
def mutateValue (v : Json) (i : ℕ) : Json :=
  match v with
  | Json.str s => Json.str (s ++ "_" ++ toString i)
  | Json.num n => Json.num (n + (i : ℤ))
  | Json.bool b => Json.num ((if b then 1 else 0) + (i : ℤ))
  | Json.null => Json.null
  | Json.arr l => Json.arr l
  | Json.obj l => Json.obj l

/-- The clone step `new_sample = last_sample.copy()` followed by the `for key in new_sample`
mutation loop: every field keeps its name, its value is mutated with the index
of the record being appended. -/
def mutateRecord (r : Record) (i : ℕ) : Record :=
  r.map (fun kv => (kv.1, mutateValue kv.2 i))

/-- The records appended by the `while len(data) < sample_size` loop, starting
when the list has length `i` and `k` records are still missing. -/
def padList (last : Record) : ℕ → ℕ → List Record
  | _, 0 => []
  | i, Nat.succ k => mutateRecord last i :: padList last (i + 1) k

/-- The padding loop itself: each iteration appends one derived record, so the
loop body runs exactly `sample_size - len(data)` times. -/
def padGo (last : Record) : ℕ → List Record → List Record
  | 0, data => data
  | Nat.succ k, data => padGo last k (data ++ [mutateRecord last data.length])

/-- The count-reconciliation block of `generate_data` (lines 96–113):
if the parsed count equals `sample_size` the data is untouched; a short list
is padded by cloning and mutating the last record (`{}` when the list is
empty); a long list is truncated to `data[:sample_size]`. -/
def fixData (sample_size : ℕ) (data : List Record) : List Record :=
  if data.length = sample_size then data
  else if data.length < sample_size then
    padGo ((data.getLast?).getD []) (sample_size - data.length) data
  else data.take sample_size

theorem padList_length (last : Record) : ∀ k i, (padList last i k).length = k := by
  intro k
  induction k with
  | zero => intro i; rfl
  | succ k ih => intro i; simp [padList, ih]

theorem padList_get? (last : Record) :
    ∀ k i j, j < k → (padList last i k).get? j = some (mutateRecord last (i + j)) := by
  intro k
  induction k with
  | zero => intro i j h; omega
  | succ k ih =>
    intro i j h
    cases j with
    | zero => simp [padList]
    | succ j =>
      have := ih (i + 1) j (by omega)
      simpa [padList, Nat.add_assoc, Nat.add_comm 1 j] using this

theorem padGo_eq (last : Record) :
    ∀ k data, padGo last k data = data ++ padList last data.length k := by
  intro k
  induction k with
  | zero => intro data; simp [padGo, padList]
  | succ k ih =>
    intro data
    rw [padGo, ih]
    simp [padList, List.append_assoc]

/-- Claim C5 — Padding law: a parsed non-empty sequence shorter than the expected
count `N` is extended to length exactly `N`; the original entries are kept
unchanged as a prefix, and the entry at each new position `j` is the original
last record with every field mutated by index `j` — text values get the
positional suffix `"_{j}"` appended, numeric values get `j` added. -/
theorem repair_padding_law (N : ℕ) (data : List Record) (hne : data ≠ [])
    (hlt : data.length < N) :
    (fixData N data).length = N ∧
    (fixData N data).take data.length = data ∧
    (∀ j, data.length ≤ j → j < N →
      (fixData N data).get? j = some (mutateRecord (data.getLast hne) j)) ∧
    (∀ (r : Record) (i : ℕ) (nm s : String),
      (nm, Json.str s) ∈ r → (nm, Json.str (s ++ "_" ++ toString i)) ∈ mutateRecord r i) ∧
    (∀ (r : Record) (i : ℕ) (nm : String) (v : ℤ),
      (nm, Json.num v) ∈ r → (nm, Json.num (v + (i : ℤ))) ∈ mutateRecord r i) := by
  have hfix : fixData N data = data ++ padList (data.getLast hne) data.length (N - data.length) := by
    unfold fixData
    rw [if_neg (by omega), if_pos hlt, List.getLast?_eq_getLast data hne]
    simp [padGo_eq]
  refine ⟨?_, ?_, ?_, ?_, ?_⟩
  · rw [hfix]; simp [padList_length]; omega
  · rw [hfix, List.take_left]
  · intro j h1 h2
    rw [hfix, List.get?_append_right h1, padList_get? _ _ _ _ (by omega)]
    congr 1
    congr 1
    omega
  · intro r i nm s hmem
    exact List.mem_map_of_mem (fun kv => (kv.1, mutateValue kv.2 i)) hmem
  · intro r i nm v hmem
    exact List.mem_map_of_mem (fun kv => (kv.1, mutateValue kv.2 i)) hmem

theorem repair_padding_law_witness :
    (fixData 3 [[("a", Json.str "x"), ("b", Json.num 5)]]).length = 3 ∧
    (fixData 3 [[("a", Json.str "x"), ("b", Json.num 5)]]).get? 2 =
      some (mutateRecord [("a", Json.str "x"), ("b", Json.num 5)] 2) := by
  have h := repair_padding_law 3 [[("a", Json.str "x"), ("b", Json.num 5)]]
    (List.cons_ne_nil _ _) (by simp)
  exact ⟨h.1, h.2.2.1 2 (by simp) (by omega)⟩

/-- Claim C6 — Truncation and idempotence: a parsed sequence at least as long as the
expected count is cut to its first `N` entries unchanged (`data[:sample_size]`),
and a sequence already of length `N` is returned as is. -/
theorem repair_truncation_idempotent (N : ℕ) (data : List Record) :
    (N ≤ data.length → fixData N data = data.take N) ∧
    (data.length = N → fixData N data = data) := by
  constructor
  · intro h
    unfold fixData
    by_cases heq : data.length = N
    · rw [if_pos heq, ← heq, List.take_length]
    · rw [if_neg heq, if_neg (by omega)]
  · intro h
    unfold fixData
    rw [if_pos h]

theorem repair_truncation_idempotent_witness :
    fixData 2 [[("a", Json.num 1)], [("b", Json.num 2)], [("c", Json.num 3)]] =
      [[("a", Json.num 1)], [("b", Json.num 2)]] ∧
    fixData 1 [[("d", Json.null)]] = [[("d", Json.null)]] := by
  constructor
  · have := (repair_truncation_idempotent 2
      [[("a", Json.num 1)], [("b", Json.num 2)], [("c", Json.num 3)]]).1 (by simp)
    simpa using this
  · exact (repair_truncation_idempotent 1 [[("d", Json.null)]]).2 (by simp)

/-! ## The data-type registry
`settings.py` assigns `DATA_TYPES` twice; the second assignment (lines 82–133)
shadows the first, so the registry visible to `generator.py` is the ten-entry
catalog below.  `DATA_TYPES[key]` raising `KeyError` is modelled by `none`. -/

structure DataTypeInfo where
  name : String
  description : String
  fields : List String
deriving Repr

def DATA_TYPES : String → Option DataTypeInfo := fun data_type =>
  if data_type = "business" then
    some ⟨"Business Data", "Generate synthetic business data (finance, HR, sales, etc.)",
      ["transactions", "employee_records", "inventory"]⟩
  else if data_type = "health" then
    some ⟨"Clinical Data", "Generate synthetic medical records and health data",
      ["patient_records", "diagnoses", "treatments"]⟩
  else if data_type = "ecommerce" then
    some ⟨"E-commerce Data", "Generate user behavior and e-commerce data",
      ["user_sessions", "clickstream", "shopping_carts"]⟩
  else if data_type = "nlp" then
    some ⟨"Natural Language", "Generate synthetic conversations and text",
      ["chat_logs", "emails", "reviews"]⟩
  else if data_type = "vision" then
    some ⟨"Computer Vision", "Generate synthetic images", ["faces", "objects", "scenes"]⟩
  else if data_type = "traffic" then
    some ⟨"Traffic Data", "Generate traffic and spatial data",
      ["vehicle_trajectories", "pedestrian_movement"]⟩
  else if data_type = "audio" then
    some ⟨"Audio Data", "Generate synthetic audio and voice data",
      ["voice_commands", "conversations"]⟩
  else if data_type = "iot" then
    some ⟨"IoT Data", "Generate industrial and IoT sensor data",
      ["sensor_readings", "machine_data"]⟩
  else if data_type = "documents" then
    some ⟨"Documents", "Generate synthetic documents and forms",
      ["invoices", "contracts", "ids"]⟩
  else if data_type = "simulation" then
    some ⟨"3D/Simulation", "Generate 3D and simulation data",
      ["3d_models", "simulation_data"]⟩
  else none

/-! ## Prompt construction (`DataGenerator._create_prompt`, lines 139–247)
The schema and example literals reproduce the Python triple-quoted strings,
including their indentation; `\x7b`/`\x7d` are the literal braces. -/

def healthSchema : String :=
  "\x7b\n                \"patient_id\": \"string\",\n                \"age\": \"integer\",\n                \"gender\": \"string\",\n                \"diagnosis\": \"string\",\n                \"treatment\": \"string\",\n                \"admission_date\": \"string\",\n                \"discharge_date\": \"string\"\n            \x7d"

def healthExample : String :=
  "[\n    \x7b\n        \"patient_id\": \"PAT001\",\n        \"age\": 45,\n        \"gender\": \"Female\",\n        \"diagnosis\": \"Hypertension\",\n        \"treatment\": \"Lisinopril 10mg daily\",\n        \"admission_date\": \"2023-05-15\",\n        \"discharge_date\": \"2023-05-17\"\n    \x7d,\n    \x7b\n        \"patient_id\": \"PAT002\",\n        \"age\": 32,\n        \"gender\": \"Male\",\n        \"diagnosis\": \"Type 2 Diabetes\",\n        \"treatment\": \"Metformin 500mg twice daily\",\n        \"admission_date\": \"2023-06-01\",\n        \"discharge_date\": \"2023-06-03\"\n    \x7d\n]"

def businessSchema : String :=
  "\x7b\n                \"company_id\": \"string\",\n                \"name\": \"string\",\n                \"industry\": \"string\",\n                \"revenue\": \"float\",\n                \"employees\": \"integer\",\n                \"location\": \"string\",\n                \"founded_year\": \"integer\"\n            \x7d"

def businessExample : String :=
  "[\n    \x7b\n        \"company_id\": \"COMP001\",\n        \"name\": \"TechCorp Solutions\",\n        \"industry\": \"Technology\",\n        \"revenue\": 1500000.00,\n        \"employees\": 50,\n        \"location\": \"San Francisco, CA\",\n        \"founded_year\": 2015\n    \x7d,\n    \x7b\n        \"company_id\": \"COMP002\",\n        \"name\": \"GreenEnergy Systems\",\n        \"industry\": \"Renewable Energy\",\n        \"revenue\": 2500000.00,\n        \"employees\": 75,\n        \"location\": \"Austin, TX\",\n        \"founded_year\": 2018\n    \x7d\n]"

def ecommerceSchema : String :=
  "\x7b\n                \"order_id\": \"string\",\n                \"customer_id\": \"string\",\n                \"product\": \"string\",\n                \"quantity\": \"integer\",\n                \"price\": \"float\",\n                \"order_date\": \"string\",\n                \"shipping_address\": \"string\"\n            \x7d"

def ecommerceExample : String :=
  "[\n    \x7b\n        \"order_id\": \"ORD001\",\n        \"customer_id\": \"CUST001\",\n        \"product\": \"Wireless Headphones\",\n        \"quantity\": 1,\n        \"price\": 99.99,\n        \"order_date\": \"2023-07-15\",\n        \"shipping_address\": \"123 Main St, New York, NY 10001\"\n    \x7d,\n    \x7b\n        \"order_id\": \"ORD002\",\n        \"customer_id\": \"CUST002\",\n        \"product\": \"Smart Watch\",\n        \"quantity\": 2,\n        \"price\": 199.99,\n        \"order_date\": \"2023-07-16\",\n        \"shipping_address\": \"456 Oak Ave, Los Angeles, CA 90001\"\n    \x7d\n]"

/-- The `if data_type == "health" / elif "business" / else` schema choice: any
other string, known to the registry or not, falls through to e-commerce. -/
def schemaFor (data_type : String) : String :=
  if data_type = "health" then healthSchema
  else if data_type = "business" then businessSchema
  else ecommerceSchema

/-- Example chosen by the same branch as `schemaFor`. -/
def exampleFor (data_type : String) : String :=
  if data_type = "health" then healthExample
  else if data_type = "business" then businessExample
  else ecommerceExample

/-- The final f-string of `_create_prompt` (lines 232–247), as a function of
the interpolated pieces. -/
def promptTemplate (data_type : String) (sample_size : ℕ) (schema exampleText : String) : String :=
  "Generate EXACTLY " ++ toString sample_size ++ " synthetic " ++ data_type ++
  " records in JSON format.\nEach record should be realistic and follow this schema:\n" ++
  schema ++
  "\n\nIMPORTANT:\n1. You MUST generate EXACTLY " ++ toString sample_size ++
  " records\n2. Return ONLY a JSON array containing exactly " ++ toString sample_size ++
  " objects\n3. Do not include any additional text, markdown, or formatting\n4. Each object in the array must follow the schema exactly\n5. Generate realistic data that matches the " ++
  data_type ++
  " domain\n6. Each record should be unique and different from the others\n\nHere is an example of the expected format with realistic " ++
  data_type ++ " data:\n" ++ exampleText ++
  "\n\nNow generate " ++ toString sample_size ++
  " new, unique records following the same format but with different realistic data."

/-- The method `DataGenerator._create_prompt`. -/
def createPrompt (data_type : String) (sample_size : ℕ) : String :=
  promptTemplate data_type sample_size (schemaFor data_type) (exampleFor data_type)

theorem stringLength_append (a b : String) : (a ++ b).length = a.length + b.length := by
  cases a; cases b; simp [String.length, String.append]

/-- Claim C10 — the prompt builder `_create_prompt` is total: it returns a (non-empty) prompt for every
`data_type` string and sample count, and for every data type other than
`"health"` and `"business"` — including strings unknown to `DATA_TYPES` — the
prompt embeds the e-commerce schema and example. -/
theorem create_prompt_total_and_defaults_to_ecommerce (data_type : String) (sample_size : ℕ) :
    0 < (createPrompt data_type sample_size).length ∧
    (data_type ≠ "health" → data_type ≠ "business" →
      createPrompt data_type sample_size =
        promptTemplate data_type sample_size ecommerceSchema ecommerceExample) := by
  constructor
  · have h : (0 : ℕ) < ("Generate EXACTLY " : String).length := by decide
    unfold createPrompt promptTemplate
    simp only [stringLength_append]
    omega
  · intro h1 h2
    unfold createPrompt schemaFor exampleFor
    rw [if_neg h1, if_neg h2, if_neg h1, if_neg h2]

theorem create_prompt_total_and_defaults_to_ecommerce_witness :
    0 < (createPrompt "iot" 2).length ∧
    createPrompt "iot" 2 = promptTemplate "iot" 2 ecommerceSchema ecommerceExample := by
  have h := create_prompt_total_and_defaults_to_ecommerce "iot" 2
  exact ⟨h.1, h.2 (by decide) (by decide)⟩

/-! ## The batched entry point `DataGenerator.generate` (lines 276–375)

The per-batch flow is: build a prompt for the current batch size, call the
Hugging Face backend, clean the response, `json.loads` it, check it is a
list of the expected length, then check every item carries the required
fields of the data type.  The Python method returns dictionaries; they are
modelled by `GenResult`, whose `message` field keeps the message's payload
structurally instead of as a rendered f-string (the rendered text writes the
one-based `item + 1` / `batchNum + 1`):

* `{"status": "success", "message": f"Successfully generated {n} samples",
   "data": all_data}`                          → `status = "success"`,
  `message = .successMsg n`, `data = some all_data`;
* `{"status": "error", "message": ..., "response": r}` → `status = "error"`,
  `response = some r`;
* the `except Exception` handler (line 369) returns `response = ""` and
  message `f"Error generating data: {str(e)}"`; the exceptions that can
  actually occur in the body are `KeyError` from `DATA_TYPES[data_type]`,
  `AttributeError` from `item.keys()` on a non-dict item, and
  `ZeroDivisionError` from the `total_batches` computation when
  `num_samples == 0`; they are the `ExnDetail` payload.

No field of the model is ever a persisted-file path: `generate` never calls
`_save_data`, so its dictionaries carry no `"filepath"` key, which the model
keeps as an always-`none` `filepath` field. -/

inductive ExnDetail where
  | keyError (key : String)
  | attrNoKeys
  | zeroDivision
deriving Repr, DecidableEq

inductive GenMessage where
  | successMsg (count : ℕ)
  | notJsonArray
  | wrongCount (got expected batchNum : ℕ)
  | missingFields (item batchNum : ℕ) (missing : List String)
  | jsonDecode
  | generationException (detail : ExnDetail)
deriving Repr, DecidableEq

structure GenResult where
  status : String
  message : GenMessage
  data : Option (List Json)
  response : Option String
  filepath : Option String
deriving Repr

def mkError (m : GenMessage) (resp : String) : GenResult :=
  { status := "error", message := m, data := none, response := some resp, filepath := none }

/-- Result of the outer `except Exception` handler (lines 369–375). -/
def exnResult (d : ExnDetail) : GenResult :=
  { status := "error", message := GenMessage.generationException d, data := none,
    response := some "", filepath := none }

/-- Python `str.strip()` on a character list: drop leading and trailing
whitespace (Lean's `Char.isWhitespace` covers the ASCII whitespace Python
strips; the exotic Unicode spaces never appear in the strings at issue). -/
def stripChars (cs : List Char) : List Char :=
  ((cs.dropWhile Char.isWhitespace).reverse.dropWhile Char.isWhitespace).reverse

/-- Index of the first occurrence of `c`, Python `str.find` (`none` for -1). -/
def strFindIdx (cs : List Char) (c : Char) : Option ℕ :=
  cs.findIdx? (fun x => x == c)

/-- Index of the last occurrence of `c`, Python `str.rfind` (`none` for -1). -/
def strRFindIdx (cs : List Char) (c : Char) : Option ℕ :=
  match (cs.reverse).findIdx? (fun x => x == c) with
  | none => none
  | some j => some (cs.length - 1 - j)

/-- Response cleaning in `generate` (lines 308–320): strip whitespace, drop a
leading ```` ```json ```` and a trailing ```` ``` ```` fence, strip again, and
when both a `[` and a `]` occur keep the slice from the first `[` to the last
`]` (Python `response[start_idx:end_idx+1]`, which is empty if the last `]`
precedes the first `[`). -/
def cleanResponse (raw : String) : String :=
  let cs1 := stripChars raw.toList
  let cs2 := if ("```json".toList).isPrefixOf cs1 then cs1.drop 7 else cs1
  let cs3 := if ("```".toList).isSuffixOf cs2 then cs2.take (cs2.length - 3) else cs2
  let cs4 := stripChars cs3
  match strFindIdx cs4 '[', strRFindIdx cs4 ']' with
  | some s, some e => String.mk ((cs4.drop s).take (e + 1 - s))
  | _, _ => String.mk cs4

/-- The parse stage of a batch (lines 309–330): clean, `json.loads`
(`loads … = none` is a `JSONDecodeError`, reported as
`"Response is not a valid JSON: …"`), and the `isinstance(data, list)` check
(`"Response is not a JSON array"`).  Both failures carry the cleaned
response text, since `response` is reassigned in place. -/
def parseStage (loads : String → Option Json) (raw : String) :
    Except (GenMessage × String) (List Json) :=
  let cleaned := cleanResponse raw
  match loads cleaned with
  | none => Except.error (GenMessage.jsonDecode, cleaned)
  | some (Json.arr items) => Except.ok items
  | some _ => Except.error (GenMessage.notJsonArray, cleaned)

inductive ValFail where
  | missing (item : ℕ) (fields : List String)
  | notMapping (item : ℕ)
deriving Repr, DecidableEq

def keysOf (fs : List (String × Json)) : List String := fs.map Prod.fst

/-- The set difference `required_fields - item_fields`, kept in the order of the required list. -/
def missingOf (req keys : List String) : List String :=
  req.filter (fun f => !(keys.contains f))

/-- The `for i, item in enumerate(data)` loop (lines 342–350): `item.keys()`
raises `AttributeError` on a non-dict item; otherwise the
`required_fields.issubset(item_fields)` test fails exactly when some required
field is missing, reporting the item index and the missing fields. -/
def validateItemsAux (req : List String) : List Json → ℕ → Option ValFail
  | [], _ => none
  | Json.obj fs :: rest, i =>
    if req.all (fun f => (keysOf fs).contains f) then validateItemsAux req rest (i + 1)
    else some (ValFail.missing i (missingOf req (keysOf fs)))
  | _ :: _, i => some (ValFail.notMapping i)

/-- One batch of `generate` (lines 306–352), after the backend returned `raw`:
parse, check the count against the requested batch size, resolve the data
type (`DATA_TYPES[data_type]`, a `KeyError` for unknown types reaching the
outer handler), validate required fields.  `Except.error` carries the exact
dictionary the method returns, `Except.ok` the parsed items appended
unchanged to the accumulator. -/
def processBatch (data_type : String) (loads : String → Option Json) (raw : String)
    (cur b : ℕ) : Except GenResult (List Json) :=
  match parseStage loads raw with
  | Except.error (m, resp) => Except.error (mkError m resp)
  | Except.ok items =>
    if items.length = cur then
      match DATA_TYPES data_type with
      | none => Except.error (exnResult (ExnDetail.keyError data_type))
      | some info =>
        match validateItemsAux info.fields items 0 with
        | some (ValFail.missing i m) =>
          Except.error (mkError (GenMessage.missingFields i b m) (cleanResponse raw))
        | some (ValFail.notMapping _) => Except.error (exnResult ExnDetail.attrNoKeys)
        | none => Except.ok items
    else Except.error (mkError (GenMessage.wrongCount items.length cur b) (cleanResponse raw))

/-- The `for batch_num in range(total_batches)` loop (lines 294–352): each
iteration requests `current_batch_size = min(batch_size, num_samples -
len(all_data))` records, builds the prompt, consults the backend, and either
returns the batch's error result or extends the accumulator in batch order. -/
def generateLoop (data_type : String) (loads : String → Option Json)
    (backend : ℕ → String → String) (n B : ℕ) : ℕ → ℕ → List Json → GenResult
  | 0, _, acc =>
    { status := "success", message := GenMessage.successMsg acc.length,
      data := some acc, response := none, filepath := none }
  | Nat.succ fuel, b, acc =>
    let cur := min B (n - acc.length)
    match processBatch data_type loads (backend b (createPrompt data_type cur)) cur b with
    | Except.error r => r
    | Except.ok items => generateLoop data_type loads backend n B fuel (b + 1) (acc ++ items)

/-- The method `DataGenerator.generate` (lines 276–375).  `batch_size = min(10,
num_samples)` and `total_batches = ceil(num_samples / batch_size)`; when
`num_samples == 0` the `//` by `batch_size == 0` raises `ZeroDivisionError`,
caught by the outer handler.  `model`, `output_format`, `max_tokens` and
`language` are parameters of the Python method; the body never reads
`output_format` or `language`, and `model`/`max_tokens` are only forwarded to
the backend call that the `backend` oracle abstracts. -/
def generate (data_type model : String) (num_samples : ℕ) (output_format : String)
    (max_tokens : ℕ) (language : String) (loads : String → Option Json)
    (backend : ℕ → String → String) : GenResult :=
  let batch_size := min 10 num_samples
  if batch_size = 0 then exnResult ExnDetail.zeroDivision
  else
    generateLoop data_type loads backend num_samples batch_size
      ((num_samples + batch_size - 1) / batch_size) 0 []

/-- The per-batch request sizes of the loop, for total `n` and cap `B`,
starting from an accumulated count `acc` with `fuel` batches to go. -/
def batchSizesGo (n B : ℕ) : ℕ → ℕ → List ℕ
  | 0, _ => []
  | Nat.succ fuel, acc => min B (n - acc) :: batchSizesGo n B fuel (acc + min B (n - acc))

/-- The batch plan: `total_batches = (n + B - 1) / B` sizes, each
`min B (n - accumulated)`. -/
def batchSizes (n B : ℕ) : List ℕ := batchSizesGo n B ((n + B - 1) / B) 0

theorem le_ceil_mul (n B : ℕ) (hB : 0 < B) : n ≤ ((n + B - 1) / B) * B := by
  rcases Nat.eq_zero_or_pos n with h | h
  · simp [h]
  · have hd : (n - 1) / B + 1 ≤ (n + B - 1) / B := by
      rw [Nat.le_div_iff_mul_le hB, Nat.add_mul, Nat.one_mul]
      have h1 : (n - 1) / B * B ≤ n - 1 := Nat.div_mul_le_self _ _
      omega
    have h2 : n ≤ ((n - 1) / B + 1) * B := by
      have h3 := Nat.div_add_mod (n - 1) B
      have h4 : (n - 1) % B < B := Nat.mod_lt _ hB
      rw [Nat.add_mul, Nat.one_mul, Nat.mul_comm]
      omega
    calc n ≤ ((n - 1) / B + 1) * B := h2
    _ ≤ ((n + B - 1) / B) * B := Nat.mul_le_mul_right B hd

theorem batchSizesGo_length (n B : ℕ) :
    ∀ fuel acc, (batchSizesGo n B fuel acc).length = fuel := by
  intro fuel
  induction fuel with
  | zero => intro acc; rfl
  | succ fuel ih => intro acc; simp [batchSizesGo, ih]

theorem batchSizesGo_sum (n B : ℕ) :
    ∀ fuel acc, acc ≤ n → n ≤ acc + fuel * B →
      acc + (batchSizesGo n B fuel acc).sum = n := by
  intro fuel
  induction fuel with
  | zero => intro acc h1 h2; simp [batchSizesGo]; omega
  | succ fuel ih =>
    intro acc h1 h2
    rw [Nat.succ_mul] at h2
    simp only [batchSizesGo, List.sum_cons]
    have hrec := ih (acc + min B (n - acc)) (by omega) (by omega)
    omega

theorem batchSizesGo_get? (n B : ℕ) :
    ∀ fuel acc k, k < fuel →
      (batchSizesGo n B fuel acc).get? k =
        some (min B (n - (acc + ((batchSizesGo n B fuel acc).take k).sum))) := by
  intro fuel
  induction fuel with
  | zero => intro acc k h; omega
  | succ fuel ih =>
    intro acc k h
    cases k with
    | zero => simp [batchSizesGo]
    | succ k =>
      have := ih (acc + min B (n - acc)) k (by omega)
      simpa [batchSizesGo, Nat.add_assoc] using this

theorem processBatch_error_shape (data_type : String) (loads : String → Option Json)
    (raw : String) (cur b : ℕ) (r : GenResult)
    (h : processBatch data_type loads raw cur b = Except.error r) :
    r.status = "error" ∧ r.filepath = none := by
  unfold processBatch at h
  split at h
  · rename_i m resp heq
    cases h
    exact ⟨rfl, rfl⟩
  · split at h
    · split at h
      · cases h; exact ⟨rfl, rfl⟩
      · split at h
        · cases h; exact ⟨rfl, rfl⟩
        · cases h; exact ⟨rfl, rfl⟩
        · cases h
    · cases h; exact ⟨rfl, rfl⟩

theorem processBatch_ok_facts (data_type : String) (loads : String → Option Json)
    (raw : String) (cur b : ℕ) (items : List Json)
    (h : processBatch data_type loads raw cur b = Except.ok items) :
    items.length = cur ∧
    parseStage loads raw = Except.ok items ∧
    ∃ info, DATA_TYPES data_type = some info ∧
      validateItemsAux info.fields items 0 = none := by
  unfold processBatch at h
  split at h
  · cases h
  · rename_i items' hp
    split at h
    · rename_i hlen
      split at h
      · cases h
      · rename_i info hinfo
        split at h
        · cases h
        · cases h
        · rename_i hval
          cases h
          exact ⟨hlen, hp, info, hinfo, hval⟩
    · cases h

theorem validateItemsAux_none_valid (req : List String) :
    ∀ items i, validateItemsAux req items i = none →
      ∀ it ∈ items, ∃ fs, it = Json.obj fs ∧ ∀ f ∈ req, f ∈ keysOf fs := by
  intro items
  induction items with
  | nil => intro i h it hmem; cases hmem
  | cons hd tl ih =>
    intro i h it hmem
    cases hd with
    | obj fs =>
      rw [validateItemsAux] at h
      split at h
      · rename_i hall
        rw [List.mem_cons] at hmem
        rcases hmem with rfl | hmem
        · refine ⟨fs, rfl, ?_⟩
          intro f hf
          exact List.mem_of_elem_eq_true (List.all_eq_true.mp hall f hf)
        · exact ih (i + 1) h it hmem
      · cases h
    | str s => simp [validateItemsAux] at h
    | num v => simp [validateItemsAux] at h
    | bool v => simp [validateItemsAux] at h
    | null => simp [validateItemsAux] at h
    | arr l => simp [validateItemsAux] at h

theorem generateLoop_filepath (data_type : String) (loads : String → Option Json)
    (backend : ℕ → String → String) (n B : ℕ) :
    ∀ fuel b acc, (generateLoop data_type loads backend n B fuel b acc).filepath = none := by
  intro fuel
  induction fuel with
  | zero => intro b acc; rfl
  | succ fuel ih =>
    intro b acc
    rw [generateLoop]
    split
    · rename_i r hr
      exact (processBatch_error_shape _ _ _ _ _ _ hr).2
    · exact ih _ _

theorem generateLoop_success_facts (data_type : String) (loads : String → Option Json)
    (backend : ℕ → String → String) (n B : ℕ) :
    ∀ fuel b acc, acc.length ≤ n → n ≤ acc.length + fuel * B →
      (generateLoop data_type loads backend n B fuel b acc).status = "success" →
      ∃ d, (generateLoop data_type loads backend n B fuel b acc).data = some d ∧
        d.length = n ∧ ∃ tail, d = acc ++ tail := by
  intro fuel
  induction fuel with
  | zero =>
    intro b acc h1 h2 hs
    refine ⟨acc, rfl, by simpa using by omega, [], by simp⟩
  | succ fuel ih =>
    intro b acc h1 h2 hs
    rw [Nat.succ_mul] at h2
    rw [generateLoop] at hs ⊢
    split at hs
    · rename_i r hr
      have := (processBatch_error_shape _ _ _ _ _ _ hr).1
      rw [this] at hs
      exact absurd hs (by decide)
    · rename_i items hr
      have hlen := (processBatch_ok_facts _ _ _ _ _ _ hr).1
      have hacc : (acc ++ items).length = acc.length + min B (n - acc.length) := by
        rw [List.length_append, hlen]
      have := ih (b + 1) (acc ++ items) (by omega) (by omega) hs
      rcases this with ⟨d, hd, hdn, tail, htail⟩
      exact ⟨d, hd, hdn, items ++ tail, by rw [htail, List.append_assoc]⟩

theorem validateItemsAux_all_valid (req : List String) :
    ∀ items i, (∀ it ∈ items, ∃ fs, it = Json.obj fs ∧ ∀ f ∈ req, f ∈ keysOf fs) →
      validateItemsAux req items i = none := by
  intro items
  induction items with
  | nil => intro i h; rfl
  | cons hd tl ih =>
    intro i h
    rcases h hd (by simp) with ⟨fs, rfl, hsub⟩
    rw [validateItemsAux, if_pos ?_]
    · exact ih (i + 1) (fun it hit => h it (by simp [hit]))
    · exact List.all_eq_true.mpr (fun f hf => List.elem_eq_true_of_mem (hsub f hf))

theorem validateItemsAux_first_missing (req : List String) (fs : List (String × Json)) :
    ∀ pre rest i,
      (∀ it ∈ pre, ∃ gs, it = Json.obj gs ∧ ∀ f ∈ req, f ∈ keysOf gs) →
      ¬ (∀ f ∈ req, f ∈ keysOf fs) →
      validateItemsAux req (pre ++ Json.obj fs :: rest) i =
        some (ValFail.missing (i + pre.length) (missingOf req (keysOf fs))) := by
  intro pre
  induction pre with
  | nil =>
    intro rest i hpre hbad
    rw [List.nil_append, validateItemsAux, if_neg ?_]
    · simp
    · intro hall
      exact hbad (fun f hf => List.mem_of_elem_eq_true (List.all_eq_true.mp hall f hf))
  | cons hd tl ih =>
    intro rest i hpre hbad
    rcases hpre hd (by simp) with ⟨gs, rfl, hsub⟩
    rw [List.cons_append, validateItemsAux, if_pos ?_]
    · rw [ih rest (i + 1) (fun it hit => hpre it (by simp [hit])) hbad]
      congr 2
      simp
      omega
    · exact List.all_eq_true.mpr (fun f hf => List.elem_eq_true_of_mem (hsub f hf))

theorem generate_first_batch (data_type model : String) (num_samples : ℕ)
    (output_format : String) (max_tokens : ℕ) (language : String)
    (loads : String → Option Json) (backend : ℕ → String → String)
    (hn : 0 < num_samples) :
    ∃ fuel, (num_samples + min 10 num_samples - 1) / min 10 num_samples = fuel + 1 ∧
      generate data_type model num_samples output_format max_tokens language loads backend =
        (match processBatch data_type loads
            (backend 0 (createPrompt data_type (min 10 num_samples)))
            (min 10 num_samples) 0 with
        | Except.error r => r
        | Except.ok items =>
          generateLoop data_type loads backend num_samples (min 10 num_samples) fuel 1 items) := by
  have hB : 0 < min 10 num_samples := by omega
  have hfuel : 1 ≤ (num_samples + min 10 num_samples - 1) / min 10 num_samples :=
    (Nat.one_le_div_iff hB).mpr (by omega)
  cases hq : (num_samples + min 10 num_samples - 1) / min 10 num_samples with
  | zero => omega
  | succ fuel =>
    refine ⟨fuel, rfl, ?_⟩
    have hcur : min (min 10 num_samples) (num_samples - ([] : List Json).length) =
        min 10 num_samples := by simp
    unfold generate
    rw [if_neg (by omega), hq, generateLoop, hcur]
    rfl

/-- Claim C2 — Batch plan: for every `N > 0` and cap `B > 0` the plan has
exactly `ceil(N/B) = (N + B - 1) / B` entries, each entry is
`min B (N - accumulated)`, and the entries sum to `N`; and any `generate`
result with status `"success"` carries exactly `N = num_samples` records
(the loop appends each batch's records in batch order, and `generate`
instantiates the cap as `batch_size = min 10 num_samples`). -/
theorem batch_plan_and_success_count (n B : ℕ) (hn : 0 < n) (hB : 0 < B) :
    (batchSizes n B).length = (n + B - 1) / B ∧
    (batchSizes n B).sum = n ∧
    (∀ k, k < (batchSizes n B).length →
      (batchSizes n B).get? k =
        some (min B (n - ((batchSizes n B).take k).sum))) ∧
    (∀ data_type model output_format max_tokens language loads backend,
      (generate data_type model n output_format max_tokens language loads backend).status
          = "success" →
      ∃ d, (generate data_type model n output_format max_tokens language loads
          backend).data = some d ∧ d.length = n) := by
  refine ⟨batchSizesGo_length n B _ _, ?_, ?_, ?_⟩
  · have := batchSizesGo_sum n B ((n + B - 1) / B) 0 (by omega)
      (by simpa using le_ceil_mul n B hB)
    simpa using this
  · intro k hk
    simp only [batchSizes, batchSizesGo_length] at hk
    have := batchSizesGo_get? n B ((n + B - 1) / B) 0 k hk
    simpa [batchSizes] using this
  · intro data_type model output_format max_tokens language loads backend hs
    have hB10 : 0 < min 10 n := by omega
    unfold generate at hs ⊢
    rw [if_neg (by omega)] at hs ⊢
    have := generateLoop_success_facts data_type loads backend n (min 10 n)
      ((n + min 10 n - 1) / min 10 n) 0 [] (by simp)
      (by simpa using le_ceil_mul n (min 10 n) hB10) hs
    rcases this with ⟨d, hd, hdn, _⟩
    exact ⟨d, hd, hdn⟩

def c2raw : String :=
  "[\x7b\"transactions\": 1, \"employee_records\": 2, \"inventory\": 3\x7d, \x7b\"transactions\": 4, \"employee_records\": 5, \"inventory\": 6\x7d]"

def c2loads : String → Option Json := fun s =>
  if s = c2raw then
    some (Json.arr
      [Json.obj [("transactions", Json.num 1), ("employee_records", Json.num 2),
        ("inventory", Json.num 3)],
       Json.obj [("transactions", Json.num 4), ("employee_records", Json.num 5),
        ("inventory", Json.num 6)]])
  else none

def c2backend : ℕ → String → String := fun _ _ => c2raw

theorem batch_plan_and_success_count_witness :
    (batchSizes 2 2).length = (2 + 2 - 1) / 2 ∧
    (batchSizes 2 2).sum = 2 ∧
    (∃ d, (generate "business" "m" 2 "json" 5 "en" c2loads c2backend).data = some d ∧
      d.length = 2) := by
  have h := batch_plan_and_success_count 2 2 (by decide) (by decide)
  exact ⟨h.1, h.2.1, h.2.2.2 "business" "m" "json" 5 "en" c2loads c2backend rfl⟩

theorem generateLoop_success_valid (data_type : String) (loads : String → Option Json)
    (backend : ℕ → String → String) (n B : ℕ) :
    ∀ fuel b acc d,
      (∀ rec ∈ acc, ∃ info fs, DATA_TYPES data_type = some info ∧ rec = Json.obj fs ∧
        ∀ f ∈ info.fields, f ∈ keysOf fs) →
      (generateLoop data_type loads backend n B fuel b acc).status = "success" →
      (generateLoop data_type loads backend n B fuel b acc).data = some d →
      ∀ rec ∈ d, ∃ info fs, DATA_TYPES data_type = some info ∧ rec = Json.obj fs ∧
        ∀ f ∈ info.fields, f ∈ keysOf fs := by
  intro fuel
  induction fuel with
  | zero =>
    intro b acc d hacc hs hd
    cases hd
    exact hacc
  | succ fuel ih =>
    intro b acc d hacc hs hd
    rw [generateLoop] at hs hd
    cases hpb : processBatch data_type loads
        (backend b (createPrompt data_type (min B (n - acc.length))))
        (min B (n - acc.length)) b with
    | error r =>
      rw [hpb] at hs
      have := (processBatch_error_shape _ _ _ _ _ _ hpb).1
      rw [this] at hs
      exact absurd hs (by decide)
    | ok items =>
      rw [hpb] at hs hd
      rcases processBatch_ok_facts _ _ _ _ _ _ hpb with ⟨_, _, info, hinfo, hval⟩
      refine ih (b + 1) (acc ++ items) d ?_ hs hd
      intro rec hrec
      rcases List.mem_append.mp hrec with hrec | hrec
      · exact hacc rec hrec
      · rcases validateItemsAux_none_valid info.fields items 0 hval rec hrec
          with ⟨fs, rfl, hsub⟩
        exact ⟨info, fs, hinfo, rfl, hsub⟩

/-- Claim C4 — Required-field enforcement in the batched pipeline:
(1) every record in a success result is a mapping whose key set contains
every required field of the data type; (2) if a batch's parsed items pass the
count check and the first invalid item is a mapping missing some required
fields, the batch fails with an error naming that item's position, the batch
number and exactly the missing field names (`required_fields - item_fields`),
and (3) items carrying all required fields — extras permitted — pass
validation and are handed back untouched; (4) a batch error aborts the whole
request: the loop returns that error result as the result of `generate`'s
loop. -/
theorem generate_required_fields_enforced :
    (∀ data_type model n output_format max_tokens language loads backend d,
      (generate data_type model n output_format max_tokens language loads
        backend).status = "success" →
      (generate data_type model n output_format max_tokens language loads
        backend).data = some d →
      ∀ rec ∈ d, ∃ info fs, DATA_TYPES data_type = some info ∧ rec = Json.obj fs ∧
        ∀ f ∈ info.fields, f ∈ keysOf fs) ∧
    (∀ data_type loads raw cur b info pre fs rest,
      DATA_TYPES data_type = some info →
      parseStage loads raw = Except.ok (pre ++ Json.obj fs :: rest) →
      (pre ++ Json.obj fs :: rest).length = cur →
      (∀ it ∈ pre, ∃ gs, it = Json.obj gs ∧ ∀ f ∈ info.fields, f ∈ keysOf gs) →
      ¬ (∀ f ∈ info.fields, f ∈ keysOf fs) →
      processBatch data_type loads raw cur b =
        Except.error (mkError (GenMessage.missingFields pre.length b
          (missingOf info.fields (keysOf fs))) (cleanResponse raw))) ∧
    (∀ data_type loads raw cur b info items,
      DATA_TYPES data_type = some info →
      parseStage loads raw = Except.ok items →
      items.length = cur →
      (∀ it ∈ items, ∃ fs, it = Json.obj fs ∧ ∀ f ∈ info.fields, f ∈ keysOf fs) →
      processBatch data_type loads raw cur b = Except.ok items) ∧
    (∀ data_type loads backend n B fuel b acc r,
      processBatch data_type loads
        (backend b (createPrompt data_type (min B (n - acc.length))))
        (min B (n - acc.length)) b = Except.error r →
      generateLoop data_type loads backend n B (fuel + 1) b acc = r) := by
  refine ⟨?_, ?_, ?_, ?_⟩
  · intro data_type model n output_format max_tokens language loads backend d hs hd
    simp only [generate] at hs hd
    by_cases hz : min 10 n = 0
    · rw [if_pos hz] at hs
      exact absurd hs (by decide)
    · rw [if_neg hz] at hs hd
      exact generateLoop_success_valid data_type loads backend n (min 10 n) _ 0 [] d
        (by intro rec hrec; cases hrec) hs hd
  · intro data_type loads raw cur b info pre fs rest hinfo hp hlen hpre hbad
    have hval := validateItemsAux_first_missing info.fields fs pre rest 0 hpre hbad
    simp only [Nat.zero_add] at hval
    simp only [processBatch, hp, hinfo, hval, if_pos hlen]
  · intro data_type loads raw cur b info items hinfo hp hlen hvalid
    have hval := validateItemsAux_all_valid info.fields items 0 hvalid
    simp only [processBatch, hp, hinfo, hval, if_pos hlen]
  · intro data_type loads backend n B fuel b acc r hr
    rw [generateLoop, hr]

def businessInfo : DataTypeInfo :=
  ⟨"Business Data", "Generate synthetic business data (finance, HR, sales, etc.)",
    ["transactions", "employee_records", "inventory"]⟩

def c4raw : String :=
  "[\x7b\"transactions\": 1, \"employee_records\": 2, \"inventory\": 3, \"extra\": 4\x7d]"

def c4rawMissing : String := "[\x7b\"transactions\": 7\x7d]"

def c4loads : String → Option Json := fun s =>
  if s = c4raw then
    some (Json.arr [Json.obj [("transactions", Json.num 1), ("employee_records", Json.num 2),
      ("inventory", Json.num 3), ("extra", Json.num 4)]])
  else if s = c4rawMissing then
    some (Json.arr [Json.obj [("transactions", Json.num 7)]])
  else none

def c4backend : ℕ → String → String := fun _ _ => c4raw

def c4backendMissing : ℕ → String → String := fun _ _ => c4rawMissing

theorem generate_required_fields_enforced_witness :
    (∃ info fs, DATA_TYPES "business" = some info ∧
      Json.obj [("transactions", Json.num 1), ("employee_records", Json.num 2),
        ("inventory", Json.num 3), ("extra", Json.num 4)] = Json.obj fs ∧
      ∀ f ∈ info.fields, f ∈ keysOf fs) ∧
    processBatch "business" c4loads c4rawMissing 1 0 =
      Except.error (mkError (GenMessage.missingFields 0 0
        (missingOf businessInfo.fields (keysOf [("transactions", Json.num 7)])))
        (cleanResponse c4rawMissing)) ∧
    processBatch "business" c4loads c4raw 1 0 = Except.ok
      [Json.obj [("transactions", Json.num 1), ("employee_records", Json.num 2),
        ("inventory", Json.num 3), ("extra", Json.num 4)]] ∧
    generateLoop "business" c4loads c4backendMissing 1 1 (0 + 1) 0 [] =
      mkError (GenMessage.missingFields 0 0
        (missingOf businessInfo.fields (keysOf [("transactions", Json.num 7)])))
        (cleanResponse c4rawMissing) := by
  have h := generate_required_fields_enforced
  refine ⟨?_, ?_, ?_, ?_⟩
  · exact h.1 "business" "m" 1 "json" 5 "en" c4loads c4backend
      [Json.obj [("transactions", Json.num 1), ("employee_records", Json.num 2),
        ("inventory", Json.num 3), ("extra", Json.num 4)]] rfl rfl _ (by simp)
  · exact h.2.1 "business" c4loads c4rawMissing 1 0 businessInfo
      [] [("transactions", Json.num 7)] [] rfl rfl rfl
      (by intro it hit; cases hit) (by decide)
  · refine h.2.2.1 "business" c4loads c4raw 1 0 businessInfo
      [Json.obj [("transactions", Json.num 1), ("employee_records", Json.num 2),
        ("inventory", Json.num 3), ("extra", Json.num 4)]] rfl rfl rfl ?_
    intro it hit
    rw [List.mem_singleton] at hit
    subst hit
    exact ⟨_, rfl, by decide⟩
  · exact h.2.2.2 "business" c4loads c4backendMissing 1 1 0 0 [] _ rfl

/-! ## Claim C1: count mismatches in the batched pipeline -/

def c1loads : String → Option Json := fun s =>
  if s = "[1]" then some (Json.arr [Json.num 1]) else none

def c1backend : ℕ → String → String := fun _ _ => "[1]"

/-- Counterexample for claim C1: requesting 2 samples while the backend's text
parses to a 1-element array makes the batched pipeline return an **error**
result whose only ground is the count mismatch — it is not repaired. -/
theorem generate_errors_on_count_mismatch_cx :
    (generate "business" "m" 2 "json" 5 "en" c1loads c1backend).status = "error" ∧
    (generate "business" "m" 2 "json" 5 "en" c1loads c1backend).message =
      GenMessage.wrongCount 1 2 0 :=
  ⟨rfl, rfl⟩

/-- Claim C1 (amended) — In the batched entry point `generate`, a first batch
whose raw text parses as an array of the wrong length makes the whole request
fail with an error result naming the parsed count, the requested count and the
batch; the padding/truncation repair is applied only by the single-shot
`generate_data` path (`fixData`), never here. -/
theorem generate_count_mismatch_error (data_type model : String) (n : ℕ)
    (output_format : String) (max_tokens : ℕ) (language : String)
    (loads : String → Option Json) (backend : ℕ → String → String) (items : List Json)
    (hn : 0 < n)
    (hp : parseStage loads (backend 0 (createPrompt data_type (min 10 n))) =
      Except.ok items)
    (hne : items.length ≠ min 10 n) :
    generate data_type model n output_format max_tokens language loads backend =
      mkError (GenMessage.wrongCount items.length (min 10 n) 0)
        (cleanResponse (backend 0 (createPrompt data_type (min 10 n)))) := by
  obtain ⟨fuel, hq, hgen⟩ := generate_first_batch data_type model n output_format
    max_tokens language loads backend hn
  have hpb : processBatch data_type loads
      (backend 0 (createPrompt data_type (min 10 n))) (min 10 n) 0 =
      Except.error (mkError (GenMessage.wrongCount items.length (min 10 n) 0)
        (cleanResponse (backend 0 (createPrompt data_type (min 10 n))))) := by
    simp only [processBatch, hp, if_neg hne]
  rw [hgen, hpb]

def c1wloads : String → Option Json := fun s =>
  if s = "[9]" then some (Json.arr [Json.num 9]) else none

def c1wbackend : ℕ → String → String := fun _ _ => "[9]"

theorem generate_count_mismatch_error_witness :
    generate "health" "m" 3 "json" 5 "en" c1wloads c1wbackend =
      mkError (GenMessage.wrongCount 1 3 0)
        (cleanResponse (c1wbackend 0 (createPrompt "health" (min 10 3)))) :=
  generate_count_mismatch_error "health" "m" 3 "json" 5 "en" c1wloads c1wbackend
    [Json.num 9] (by decide) rfl (by decide)

/-! ## Claim C3: persistence in the batched pipeline -/

def c3raw : String :=
  "[\x7b\"transactions\": 10, \"employee_records\": 20, \"inventory\": 30\x7d]"

def c3loads : String → Option Json := fun s =>
  if s = c3raw then
    some (Json.arr [Json.obj [("transactions", Json.num 10),
      ("employee_records", Json.num 20), ("inventory", Json.num 30)]])
  else none

def c3backend : ℕ → String → String := fun _ _ => c3raw

/-- Counterexample for claim C3: a request that completes with status success
carries no persisted-file path — the batched `generate` never invokes
`_save_data`, and its success dictionary has only `status`, `message` and
`data` keys. -/
theorem generate_success_has_no_filepath_cx :
    (generate "business" "m" 1 "json" 5 "en" c3loads c3backend).status = "success" ∧
    (generate "business" "m" 1 "json" 5 "en" c3loads c3backend).filepath = none :=
  ⟨rfl, rfl⟩

/-- Claim C3 (amended) — The batched entry point `generate` never invokes the
Persister: no result it returns, success or error, carries a persisted-file
path (only the single-shot `generate_data` calls `_save_data` and returns a
`filepath`). -/
theorem generate_never_sets_filepath (data_type model : String) (num_samples : ℕ)
    (output_format : String) (max_tokens : ℕ) (language : String)
    (loads : String → Option Json) (backend : ℕ → String → String) :
    (generate data_type model num_samples output_format max_tokens language loads
      backend).filepath = none := by
  simp only [generate]
  by_cases hz : min 10 num_samples = 0
  · rw [if_pos hz]
    rfl
  · rw [if_neg hz]
    exact generateLoop_filepath _ _ _ _ _ _ _ _

/-! ## Claim C7: the parse stage -/

def c7loads : String → Option Json := fun s =>
  if s = "[1, 2, 3]" then some (Json.arr [Json.num 1, Json.num 2, Json.num 3]) else none

def c7backend : ℕ → String → String := fun _ _ => "[1, 2, 3]"

/-- Counterexample for claim C7: the text `"[1, 2, 3]"` parses as an array
whose elements are *not* mappings, yet the parse stage accepts it — and the
eventual failure of the request (the `AttributeError` from `item.keys()`
reaching the outer handler) is not a parse error and carries `""`, not the
raw text. -/
theorem parse_accepts_non_mapping_array_cx :
    parseStage c7loads "[1, 2, 3]" = Except.ok [Json.num 1, Json.num 2, Json.num 3] ∧
    (generate "business" "m" 3 "json" 5 "en" c7loads c7backend).message =
      GenMessage.generationException ExnDetail.attrNoKeys ∧
    (generate "business" "m" 3 "json" 5 "en" c7loads c7backend).response = some "" :=
  ⟨rfl, rfl, rfl⟩

/-- Claim C7 (amended) — The parse stage strips the code-fence markers, keeps
the substring from the first `[` to the last `]` when both exist
(`cleanResponse`), and `json.loads`-parses the result; it fails — with an
error that carries the *processed* text — iff the processed text does not
parse as JSON at all or parses as a non-array value.  Elements are not
required to be mappings at this stage; an array of non-mappings is returned
as parsed items (its failure comes later, see the C7 counterexample). -/
theorem parse_stage_error_iff (loads : String → Option Json) (raw : String) :
    ((∃ e, parseStage loads raw = Except.error e) ↔
      loads (cleanResponse raw) = none ∨
        ∃ j, loads (cleanResponse raw) = some j ∧ ∀ items, j ≠ Json.arr items) ∧
    (∀ m resp, parseStage loads raw = Except.error (m, resp) →
      resp = cleanResponse raw) ∧
    (∀ items, parseStage loads raw = Except.ok items →
      loads (cleanResponse raw) = some (Json.arr items)) := by
  refine ⟨⟨?_, ?_⟩, ?_, ?_⟩
  · rintro ⟨e, he⟩
    simp only [parseStage] at he
    cases hl : loads (cleanResponse raw) with
    | none => exact Or.inl rfl
    | some j =>
      rw [hl] at he
      cases j with
      | arr l => cases he
      | str s => exact Or.inr ⟨_, rfl, fun items h => by cases h⟩
      | num v => exact Or.inr ⟨_, rfl, fun items h => by cases h⟩
      | bool v => exact Or.inr ⟨_, rfl, fun items h => by cases h⟩
      | null => exact Or.inr ⟨_, rfl, fun items h => by cases h⟩
      | obj fs => exact Or.inr ⟨_, rfl, fun items h => by cases h⟩
  · rintro (hl | ⟨j, hl, hne⟩)
    · exact ⟨(GenMessage.jsonDecode, cleanResponse raw), by simp only [parseStage]; rw [hl]⟩
    · cases j with
      | arr l => exact absurd rfl (hne l)
      | str s =>
        exact ⟨(GenMessage.notJsonArray, cleanResponse raw), by simp only [parseStage]; rw [hl]⟩
      | num v =>
        exact ⟨(GenMessage.notJsonArray, cleanResponse raw), by simp only [parseStage]; rw [hl]⟩
      | bool v =>
        exact ⟨(GenMessage.notJsonArray, cleanResponse raw), by simp only [parseStage]; rw [hl]⟩
      | null =>
        exact ⟨(GenMessage.notJsonArray, cleanResponse raw), by simp only [parseStage]; rw [hl]⟩
      | obj fs =>
        exact ⟨(GenMessage.notJsonArray, cleanResponse raw), by simp only [parseStage]; rw [hl]⟩
  · intro m resp h
    simp only [parseStage] at h
    cases hl : loads (cleanResponse raw) with
    | none =>
      rw [hl] at h
      cases h
      rfl
    | some j =>
      rw [hl] at h
      cases j with
      | arr l => cases h
      | str s => cases h; rfl
      | num v => cases h; rfl
      | bool v => cases h; rfl
      | null => cases h; rfl
      | obj fs => cases h; rfl
  · intro items h
    simp only [parseStage] at h
    cases hl : loads (cleanResponse raw) with
    | none => rw [hl] at h; cases h
    | some j =>
      rw [hl] at h
      cases j with
      | arr l => cases h; rfl
      | str s => cases h
      | num v => cases h
      | bool v => cases h
      | null => cases h
      | obj fs => cases h

def c7wloads : String → Option Json := fun _ => none

theorem parse_stage_error_iff_witness :
    (∃ e, parseStage c7wloads "oops" = Except.error e) ∧
    (GenMessage.jsonDecode, "oops").2 = cleanResponse "oops" := by
  have h := parse_stage_error_iff c7wloads "oops"
  exact ⟨h.1.mpr (Or.inl rfl), h.2.1 GenMessage.jsonDecode "oops" rfl⟩

/-! ## Claim C8: unknown data types -/

def c8loads : String → Option Json := fun s =>
  if s = "[1]" then some (Json.arr [Json.num 1]) else none

def c8backendA : ℕ → String → String := fun _ _ => "nonsense"

def c8backendB : ℕ → String → String := fun _ _ => "[1]"

/-- Counterexample for claim C8: for the unknown data type `"foo"` the result
of `generate` depends on the backend's response — so a prompt is built and the
backend is called; no `ConfigError` is raised before generation.  One response
yields a JSON-decode error, the other reaches the `DATA_TYPES["foo"]` lookup,
whose `KeyError` is caught by the generic handler only after the first batch
passed the array and count checks. -/
theorem unknown_data_type_reaches_backend_cx :
    generate "foo" "m" 1 "json" 5 "en" c8loads c8backendA ≠
      generate "foo" "m" 1 "json" 5 "en" c8loads c8backendB ∧
    (generate "foo" "m" 1 "json" 5 "en" c8loads c8backendA).message =
      GenMessage.jsonDecode ∧
    (generate "foo" "m" 1 "json" 5 "en" c8loads c8backendB).message =
      GenMessage.generationException (ExnDetail.keyError "foo") := by
  refine ⟨?_, rfl, rfl⟩
  intro h
  exact absurd (congrArg GenResult.message h) (by decide)

/-- Claim C8 (amended) — A request with an unknown `data_type` does not fail
before generation: the prompt (falling back to the e-commerce template, see
`createPrompt`) is built and the backend is invoked for the first batch; only
when that batch's response has passed the array and count checks does the
`DATA_TYPES[data_type]` lookup raise the `KeyError` that the outer handler
converts into the error result. -/
theorem unknown_data_type_fails_after_first_batch (data_type model : String) (n : ℕ)
    (output_format : String) (max_tokens : ℕ) (language : String)
    (loads : String → Option Json) (backend : ℕ → String → String) (items : List Json)
    (hdt : DATA_TYPES data_type = none) (hn : 0 < n)
    (hp : parseStage loads (backend 0 (createPrompt data_type (min 10 n))) =
      Except.ok items)
    (hlen : items.length = min 10 n) :
    generate data_type model n output_format max_tokens language loads backend =
      exnResult (ExnDetail.keyError data_type) := by
  obtain ⟨fuel, hq, hgen⟩ := generate_first_batch data_type model n output_format
    max_tokens language loads backend hn
  have hpb : processBatch data_type loads
      (backend 0 (createPrompt data_type (min 10 n))) (min 10 n) 0 =
      Except.error (exnResult (ExnDetail.keyError data_type)) := by
    simp only [processBatch, hp, hdt, if_pos hlen]
  rw [hgen, hpb]

def c8wloads : String → Option Json := fun s =>
  if s = "[1, 2]" then some (Json.arr [Json.num 1, Json.num 2]) else none

def c8wbackend : ℕ → String → String := fun _ _ => "[1, 2]"

theorem unknown_data_type_fails_after_first_batch_witness :
    generate "bar" "m" 2 "json" 5 "en" c8wloads c8wbackend =
      exnResult (ExnDetail.keyError "bar") :=
  unknown_data_type_fails_after_first_batch "bar" "m" 2 "json" 5 "en" c8wloads
    c8wbackend [Json.num 1, Json.num 2] rfl (by decide) rfl (by decide)

/-- Claim C9 — The batched entry point ignores `output_format` and `language`
entirely: two invocations differing only in those two arguments (same data
type, model, sample count, token budget, `json.loads` behaviour and backend
responses) return identical results; in particular no output-format
validation of any kind takes place. -/
theorem generate_ignores_output_format_and_language (data_type model : String)
    (num_samples : ℕ) (fmt1 fmt2 : String) (max_tokens : ℕ) (lang1 lang2 : String)
    (loads : String → Option Json) (backend : ℕ → String → String) :
    generate data_type model num_samples fmt1 max_tokens lang1 loads backend =
      generate data_type model num_samples fmt2 max_tokens lang2 loads backend := rfl
